import Mathlib

/-
  Verification development for the HydroSync servo-control BLE client
  (src/App.js).  The definitions below are a shallow embedding of the
  application's pure control logic: the scan filter, the connect retry
  loop, post-connection discovery/verification, the servo command path
  (toggleServo), the disconnect handlers, and the base64 command
  encoder / notification decoder.
-/

namespace HydroSync

/-- The fixed 128-bit service identifier from src/App.js. -/
def SERVICE_UUID : String := "0000FFE0-0000-1000-8000-00805F9B34FB"

/-- The fixed 128-bit characteristic identifier from src/App.js. -/
def CHARACTERISTIC_UUID : String := "0000FFE1-0000-1000-8000-00805F9B34FB"

/-- The advertised peripheral name the scan filters on. -/
def DEVICE_NAME : String := "BT05"

/-! ## JavaScript string semantics: `String.prototype.includes` -/

/-- Boolean test that `needle` is a leading segment of `hay`. -/
def listPrefixOf : List Char → List Char → Bool
  | [], _ => true
  | _ :: _, [] => false
  | c :: cs, d :: ds => c == d && listPrefixOf cs ds

/-- Boolean scan for `needle` occurring contiguously anywhere in `hay`,
the semantics of JavaScript `hay.includes(needle)`. -/
def listIncludes (needle : List Char) : List Char → Bool
  | [] => listPrefixOf needle []
  | d :: ds => listPrefixOf needle (d :: ds) || listIncludes needle ds

/-- JavaScript `s.includes(t)`. -/
def jsIncludes (s t : String) : Bool := listIncludes t.data s.data

/-- Specification-level substring containment: `t` occurs contiguously in `s`. -/
def ContainsSubstring (s t : String) : Prop :=
  ∃ pre post, s.data = pre ++ t.data ++ post

/-! ## Base64 (`Buffer.from(_, "base64")` / `.toString("base64")`) and
ASCII decoding (`.toString("ascii")`) -/

/-- The base64 alphabet, in index order. -/
def b64Chars : List Char :=
  "ABCDEFGHIJKLMNOPQRSTUVWXYZabcdefghijklmnopqrstuvwxyz0123456789+/".data

/-- The base64 digit for a 6-bit value. -/
def b64Char (n : Nat) : Char := b64Chars.getD n '='

/-- The 6-bit value of a base64 digit. -/
def b64Val (c : Char) : Nat := b64Chars.indexOf c

/-- Encode a byte list into base64 digits, three bytes to four digits,
padding the final partial group with `=`. -/
def b64EncodeBytes : List Nat → List Char
  | b1 :: b2 :: b3 :: rest =>
    b64Char (b1 / 4) :: b64Char ((b1 % 4) * 16 + b2 / 16) ::
      b64Char ((b2 % 16) * 4 + b3 / 64) :: b64Char (b3 % 64) :: b64EncodeBytes rest
  | [b1, b2] =>
    [b64Char (b1 / 4), b64Char ((b1 % 4) * 16 + b2 / 16), b64Char ((b2 % 16) * 4), '=']
  | [b1] =>
    [b64Char (b1 / 4), b64Char ((b1 % 4) * 16), '=', '=']
  | [] => []

/-- Decode a list of 6-bit values (padding already stripped) into bytes. -/
def b64DecodeVals : List Nat → List Nat
  | v1 :: v2 :: v3 :: v4 :: rest =>
    (v1 * 4 + v2 / 16) :: ((v2 % 16) * 16 + v3 / 4) :: ((v3 % 4) * 64 + v4) ::
      b64DecodeVals rest
  | [v1, v2, v3] => [v1 * 4 + v2 / 16, (v2 % 16) * 16 + v3 / 4]
  | [v1, v2] => [v1 * 4 + v2 / 16]
  | _ => []

/-- `Buffer.from(bytes).toString("base64")`. -/
def b64encode (bs : List Nat) : String := String.mk (b64EncodeBytes bs)

/-- `Buffer.from(s, "base64")`: the byte list a base64 string denotes. -/
def b64decode (s : String) : List Nat :=
  b64DecodeVals ((s.data.filter (fun c => !(c == '='))).map b64Val)

/-- The UTF-8 bytes of an ASCII string (`Buffer.from(s)`); for the
command tokens used here every character is ASCII, so these are the
code points. -/
def asciiBytes (s : String) : List Nat := s.data.map Char.toNat

/-- Node's `buffer.toString("ascii")`: each byte is masked to 7 bits and
read as a character. -/
def asciiOfBytes (bs : List Nat) : String :=
  String.mk (bs.map (fun b => Char.ofNat (b % 128)))

/-- JavaScript `toLowerCase`, restricted to the characters appearing in
UUIDs; character-wise lowering. -/
def jsToLower (s : String) : String := String.mk (s.data.map Char.toLower)

/-- Truthiness of a nullable JavaScript string: `null`, `undefined` and
`""` are falsy. -/
def jsTruthy : Option String → Bool
  | none => false
  | some s => !(s == "")

/-! ## Data model -/

/-- A discovered GATT service, as returned by `device.services()`. -/
structure Service where
  uuid : String
deriving DecidableEq

/-- A discovered GATT characteristic, as returned by
`device.characteristicsForService(_)`; the capability flags mirror the
adapter's characteristic object. -/
structure Characteristic where
  uuid : String
  isWritableWithResponse : Bool
  isWritableWithoutResponse : Bool
deriving DecidableEq

/-- A connected device together with its discovered topology: the
service list and the characteristic list for the target service. -/
structure ConnectedDevice where
  services : List Service
  characteristicsForService : List Characteristic
deriving DecidableEq

/-- The application's React state relevant to the BLE session:
`device`, `isConnected`, `isScanning`, `servoState` and the log list. -/
structure AppState where
  device : Option ConnectedDevice
  isConnected : Bool
  isScanning : Bool
  servoState : Bool
  logs : List String
deriving DecidableEq

/-- Append one log line (`addLog`). -/
def addLog (st : AppState) (m : String) : AppState :=
  { st with logs := st.logs ++ [m] }

/-- Append several log lines. -/
def addLogs (st : AppState) (ms : List String) : AppState :=
  { st with logs := st.logs ++ ms }

/-- Calls made against the BLE adapter, recorded so theorems can state
which radio operations an execution path performs. -/
inductive AdapterCall where
  | servicesQuery
  | characteristicsQuery
  | writeWithResponse (svc ch payload : String)
  | writeWithoutResponse (svc ch payload : String)
  | monitorCharacteristic (svc ch : String)
  | stopDeviceScan
  | connectRequest
  | cancelConnection
deriving DecidableEq

/-- Whether an adapter call is a characteristic write. -/
def AdapterCall.isWrite : AdapterCall → Bool
  | .writeWithResponse _ _ _ => true
  | .writeWithoutResponse _ _ _ => true
  | _ => false

/-- The payload of the first write call in a call list, if any. -/
def writePayload : List AdapterCall → Option String
  | [] => none
  | AdapterCall.writeWithResponse _ _ p :: _ => some p
  | AdapterCall.writeWithoutResponse _ _ p :: _ => some p
  | _ :: rest => writePayload rest

/-! ## Scanner -/

/-- The scan filter from `startScan`: the device matches when the
advertised name or the local name equals the target, or a truthy name
field contains it as a substring. -/
def hasMatchingName (deviceName localName : Option String) : Bool :=
  (deviceName == some DEVICE_NAME) || (localName == some DEVICE_NAME) ||
    (jsTruthy deviceName && listIncludes DEVICE_NAME.data (deviceName.getD "").data) ||
    (jsTruthy localName && listIncludes DEVICE_NAME.data (localName.getD "").data)

/-- The three events that can end (or continue) an active scan: an
adapter-reported error, a scanned advertisement, and the 15-second
timeout firing. -/
inductive ScanEvent where
  | scanError (msg : String)
  | deviceFound (name localName : Option String)
  | timeoutFired
deriving DecidableEq

/-- One step of the scan callback / timeout logic from `startScan`,
returning the next state and the adapter calls performed. -/
def scanStep (st : AppState) (ev : ScanEvent) : AppState × List AdapterCall :=
  match ev with
  | ScanEvent.scanError m =>
    ({ addLog st ("Scan error: " ++ m) with isScanning := false }, [])
  | ScanEvent.timeoutFired =>
    ({ addLog st "Scan timed out. Device not found." with isScanning := false },
     [AdapterCall.stopDeviceScan])
  | ScanEvent.deviceFound n l =>
    if hasMatchingName n l then
      ({ addLog st ("Found " ++ DEVICE_NAME ++ "!") with isScanning := false },
       [AdapterCall.stopDeviceScan, AdapterCall.connectRequest])
    else (st, [])

/-! ## Connector: retry loop -/

/-- Events of the connect retry loop: a connection attempt (by index)
and the fixed wait between failed attempts, in milliseconds. -/
inductive ConnEvent where
  | attempt (i : Nat)
  | wait (ms : Nat)
deriving DecidableEq

/-- The retry loop body of `connectToDevice`: `res i = none` means
attempt `i` succeeds, `res i = some e` that it fails with error `e`.
The second argument is the number of attempts still allowed. -/
def connectGo (res : Nat → Option String) : Nat → Nat → List ConnEvent × Except String Nat
  | _, 0 => ([], Except.error "")
  | i, r + 1 =>
    match res i with
    | none => ([ConnEvent.attempt i], Except.ok i)
    | some e =>
      match r with
      | 0 => ([ConnEvent.attempt i], Except.error e)
      | r' + 1 =>
        let rest := connectGo res (i + 1) (r' + 1)
        (ConnEvent.attempt i :: ConnEvent.wait 1000 :: rest.1, rest.2)

/-- `maxRetries` as fixed in `connectToDevice`. -/
def maxRetriesDefault : Nat := 2

/-- The whole retry loop: at most `maxRetries + 1` attempts starting at
attempt 0; returns the trace of attempts/waits and either the index of
the successful attempt or the final attempt's error. -/
def connectToDeviceRetry (res : Nat → Option String) (maxRetries : Nat) :
    List ConnEvent × Except String Nat :=
  connectGo res 0 (maxRetries + 1)

/-- The number of connection attempts in a trace. -/
def countAttempts : List ConnEvent → Nat
  | [] => 0
  | ConnEvent.attempt _ :: rest => countAttempts rest + 1
  | ConnEvent.wait _ :: rest => countAttempts rest

/-! ## Connector: discovery, verification and session setup -/

/-- `services.find(s => s.uuid.toLowerCase() === SERVICE_UUID.toLowerCase())`. -/
def findTargetService (services : List Service) : Option Service :=
  services.find? (fun s => jsToLower s.uuid == jsToLower SERVICE_UUID)

/-- `characteristics.find(c => c.uuid.toLowerCase() === CHARACTERISTIC_UUID.toLowerCase())`. -/
def findTargetCharacteristic (cs : List Characteristic) : Option Characteristic :=
  cs.find? (fun c => jsToLower c.uuid == jsToLower CHARACTERISTIC_UUID)

/-- The tail of `connectToDevice` after a successful connection and
discovery: log the topology, warn (listing the discovered identifiers)
when the target service or characteristic is missing, store the device,
set the connected flag, and register the notification monitor. -/
def connectVerify (st : AppState) (dev : ConnectedDevice) : AppState × List AdapterCall :=
  let st1 := addLog st ("Found " ++ toString dev.services.length ++ " services")
  let stepVerify : AppState × List AdapterCall :=
    match findTargetService dev.services with
    | none =>
      (addLogs st1 (("WARNING: Target service " ++ SERVICE_UUID ++ " not found!") ::
         dev.services.map (fun s => "Available service: " ++ s.uuid)),
       [AdapterCall.servicesQuery])
    | some ts =>
      let stA := addLog st1 ("Target service found: " ++ ts.uuid)
      let stB := addLog stA ("Found " ++ toString dev.characteristicsForService.length ++
        " characteristics for service")
      match findTargetCharacteristic dev.characteristicsForService with
      | none =>
        (addLogs stB (("WARNING: Target characteristic " ++ CHARACTERISTIC_UUID ++
           " not found!") ::
           dev.characteristicsForService.map (fun c => "Available characteristic: " ++ c.uuid)),
         [AdapterCall.servicesQuery, AdapterCall.characteristicsQuery])
      | some tc =>
        (addLog stB ("Target characteristic found: " ++ tc.uuid),
         [AdapterCall.servicesQuery, AdapterCall.characteristicsQuery])
  let st2 := { stepVerify.1 with device := some dev, isConnected := true }
  (st2, stepVerify.2 ++ [AdapterCall.monitorCharacteristic SERVICE_UUID CHARACTERISTIC_UUID])

/-! ## Session: notifications, disconnects, command write -/

/-- Events delivered to the monitor callback registered in
`connectToDevice`. -/
inductive MonitorEvent where
  | err (msg : String)
  | notif (value : Option String)
deriving DecidableEq

/-- The monitor callback: on a notification with a value, decode the
base64 payload as ASCII, log it, and report whether it classifies as a
rain event (`message.includes("RAIN")`). -/
def monitorCallback (st : AppState) (ev : MonitorEvent) : AppState × Bool :=
  match ev with
  | MonitorEvent.err m => (addLog st ("Monitor error: " ++ m), false)
  | MonitorEvent.notif none => (st, false)
  | MonitorEvent.notif (some v) =>
    let message := asciiOfBytes (b64decode v)
    (addLog st ("Received: " ++ message), jsIncludes message "RAIN")

/-- The `onDisconnected` listener: log, clear the connected flag and the
device, and reset the servo state. -/
def onDisconnectedHandler (st : AppState) (devName : Option String) : AppState :=
  { addLog st ("Disconnected from " ++ devName.getD "Device") with
      isConnected := false, device := none, servoState := false }

/-- Result of an adapter call that can fail with an error message. -/
inductive WriteResult where
  | ok
  | err (msg : String)
deriving DecidableEq

/-- `disconnectDevice`: when a device is stored, request
`cancelConnection`; on its failure the catch block clears the session
state itself (the success path leaves cleanup to `onDisconnected`). -/
def disconnectDevice (st : AppState) (cancelResult : WriteResult) :
    AppState × List AdapterCall :=
  match st.device with
  | none => (st, [])
  | some _ =>
    let st1 := addLog st "Disconnecting..."
    match cancelResult with
    | WriteResult.ok => (st1, [AdapterCall.cancelConnection])
    | WriteResult.err m =>
      ({ addLog st1 ("Disconnect error: " ++ m) with
           isConnected := false, device := none, servoState := false },
       [AdapterCall.cancelConnection])

/-- The command token for a desired actuator state. -/
def commandToken (b : Bool) : String := if b then "ON\n" else "OFF\n"

/-- `toggleServo`: guard on connection, re-verify the topology, pick the
write mode from `isWritableWithResponse`, perform the write with the
base64-encoded token, and only on success flip `servoState`; a failure
whose message mentions a lost link clears the session state. -/
def toggleServo (st : AppState) (wr : WriteResult) : AppState × List AdapterCall :=
  match st.device, st.isConnected with
  | none, _ => (addLog st "Not connected to device", [])
  | some _, false => (addLog st "Not connected to device", [])
  | some dev, true =>
    let newState := !st.servoState
    let command := commandToken newState
    let st1 := addLog st ("Sending command: " ++ command.trim)
    match findTargetService dev.services with
    | none => (addLog st1 "ERROR: Service not available", [AdapterCall.servicesQuery])
    | some _ =>
      match findTargetCharacteristic dev.characteristicsForService with
      | none =>
        (addLog st1 "ERROR: Characteristic not available",
         [AdapterCall.servicesQuery, AdapterCall.characteristicsQuery])
      | some ch =>
        let payload := b64encode (asciiBytes command)
        let writeCall :=
          if ch.isWritableWithResponse then
            AdapterCall.writeWithResponse SERVICE_UUID CHARACTERISTIC_UUID payload
          else
            AdapterCall.writeWithoutResponse SERVICE_UUID CHARACTERISTIC_UUID payload
        let st2 := addLog st1 (if ch.isWritableWithResponse then
          "Using write withResponse" else "Using write withoutResponse")
        let calls := [AdapterCall.servicesQuery, AdapterCall.characteristicsQuery, writeCall]
        match wr with
        | WriteResult.ok =>
          ({ addLog st2 ("Command sent successfully: " ++ command.trim) with
               servoState := newState }, calls)
        | WriteResult.err msg =>
          let st3 := addLog st2 ("Command error: " ++ msg)
          if jsIncludes msg "disconnected" || jsIncludes msg "not connected" then
            ({ st3 with isConnected := false, device := none }, calls)
          else
            (st3, calls)

/-! ## Concrete fixtures used by witnesses and counterexamples -/

/-- The expected characteristic, writable in both modes. -/
def chOK : Characteristic :=
  { uuid := CHARACTERISTIC_UUID, isWritableWithResponse := true,
    isWritableWithoutResponse := true }

/-- The expected characteristic advertising neither write capability. -/
def chNoCaps : Characteristic :=
  { uuid := CHARACTERISTIC_UUID, isWritableWithResponse := false,
    isWritableWithoutResponse := false }

/-- The expected service. -/
def svcOK : Service := { uuid := SERVICE_UUID }

/-- A device exposing the expected topology. -/
def devOK : ConnectedDevice :=
  { services := [svcOK], characteristicsForService := [chOK] }

/-- A device whose target characteristic has no write capability. -/
def devNoCaps : ConnectedDevice :=
  { services := [svcOK], characteristicsForService := [chNoCaps] }

/-- A device exposing the expected service but not the expected
characteristic. -/
def devNoChar : ConnectedDevice :=
  { services := [svcOK], characteristicsForService := [] }

/-- The initial application state. -/
def stIdle : AppState :=
  { device := none, isConnected := false, isScanning := false,
    servoState := false, logs := [] }

/-- A connected state with servo tracked off. -/
def stConn (dev : ConnectedDevice) : AppState :=
  { device := some dev, isConnected := true, isScanning := false,
    servoState := false, logs := [] }

/-- A connected state with servo tracked on. -/
def stConnOn (dev : ConnectedDevice) : AppState :=
  { device := some dev, isConnected := true, isScanning := false,
    servoState := true, logs := [] }

/-- An attempt oracle that fails twice and then succeeds. -/
def resFailTwice : Nat → Option String :=
  fun j => if j < 2 then some "connect failed" else none

/-! ## String lemmas -/

theorem listPrefixOf_iff (needle : List Char) :
    ∀ hay, listPrefixOf needle hay = true ↔ ∃ post, hay = needle ++ post := by
  induction needle with
  | nil =>
    intro hay
    simp [listPrefixOf]
  | cons c cs ih =>
    intro hay
    cases hay with
    | nil =>
      simp [listPrefixOf]
    | cons d ds =>
      simp only [listPrefixOf, Bool.and_eq_true, beq_iff_eq, ih, List.cons_append,
        List.cons.injEq]
      constructor
      · rintro ⟨rfl, post, rfl⟩
        exact ⟨post, rfl, rfl⟩
      · rintro ⟨post, rfl, rfl⟩
        exact ⟨rfl, post, rfl⟩

theorem listIncludes_iff (needle : List Char) :
    ∀ hay, listIncludes needle hay = true ↔ ∃ pre post, hay = pre ++ needle ++ post := by
  intro hay
  induction hay with
  | nil =>
    constructor
    · intro h
      rcases (listPrefixOf_iff needle []).1 h with ⟨post, hp⟩
      exact ⟨[], post, hp⟩
    · rintro ⟨pre, post, h⟩
      cases pre with
      | nil => exact (listPrefixOf_iff needle []).2 ⟨post, h⟩
      | cons e pre' => simp at h
  | cons d ds ih =>
    simp only [listIncludes, Bool.or_eq_true, listPrefixOf_iff, ih]
    constructor
    · rintro (⟨post, h⟩ | ⟨pre, post, rfl⟩)
      · exact ⟨[], post, by simpa using h⟩
      · exact ⟨d :: pre, post, rfl⟩
    · rintro ⟨pre, post, h⟩
      cases pre with
      | nil => exact Or.inl ⟨post, by simpa using h⟩
      | cons e pre' =>
        rw [List.cons_append, List.cons_append] at h
        injection h with h1 h2
        exact Or.inr ⟨pre', post, h2⟩

theorem jsIncludes_iff (s t : String) :
    jsIncludes s t = true ↔ ContainsSubstring s t :=
  listIncludes_iff t.data s.data

/-! ## Helper lemmas about toggleServo -/

theorem commandToken_not (b : Bool) :
    commandToken (!b) = if b then "OFF\n" else "ON\n" := by
  cases b <;> rfl

theorem toggleServo_calls (st : AppState) (dev : ConnectedDevice) (s : Service)
    (ch : Characteristic) (wr : WriteResult)
    (hd : st.device = some dev) (hc : st.isConnected = true)
    (hs : findTargetService dev.services = some s)
    (hch : findTargetCharacteristic dev.characteristicsForService = some ch) :
    (toggleServo st wr).2 = [AdapterCall.servicesQuery, AdapterCall.characteristicsQuery,
      if ch.isWritableWithResponse then
        AdapterCall.writeWithResponse SERVICE_UUID CHARACTERISTIC_UUID
          (b64encode (asciiBytes (commandToken (!st.servoState))))
      else
        AdapterCall.writeWithoutResponse SERVICE_UUID CHARACTERISTIC_UUID
          (b64encode (asciiBytes (commandToken (!st.servoState))))] := by
  unfold toggleServo
  simp only [hd, hc, hs, hch]
  cases wr with
  | ok => by_cases hw : ch.isWritableWithResponse <;> simp [hw]
  | err msg =>
    by_cases hw : ch.isWritableWithResponse <;>
      by_cases hl : (jsIncludes msg "disconnected" || jsIncludes msg "not connected") = true <;>
      simp [hw, hl]

theorem toggleServo_ok_fields (st : AppState) (dev : ConnectedDevice) (s : Service)
    (ch : Characteristic)
    (hd : st.device = some dev) (hc : st.isConnected = true)
    (hs : findTargetService dev.services = some s)
    (hch : findTargetCharacteristic dev.characteristicsForService = some ch) :
    (toggleServo st WriteResult.ok).1.servoState = !st.servoState
    ∧ (toggleServo st WriteResult.ok).1.device = some dev
    ∧ (toggleServo st WriteResult.ok).1.isConnected = true := by
  unfold toggleServo
  simp only [hd, hc, hs, hch]
  by_cases hw : ch.isWritableWithResponse <;> simp [hw, addLog, hd, hc]

theorem toggleServo_err_link_fields (st : AppState) (dev : ConnectedDevice) (s : Service)
    (ch : Characteristic) (msg : String)
    (hd : st.device = some dev) (hc : st.isConnected = true)
    (hs : findTargetService dev.services = some s)
    (hch : findTargetCharacteristic dev.characteristicsForService = some ch)
    (hlk : (jsIncludes msg "disconnected" || jsIncludes msg "not connected") = true) :
    (toggleServo st (WriteResult.err msg)).1.device = none
    ∧ (toggleServo st (WriteResult.err msg)).1.isConnected = false
    ∧ (toggleServo st (WriteResult.err msg)).1.servoState = st.servoState := by
  unfold toggleServo
  simp only [hd, hc, hs, hch]
  by_cases hw : ch.isWritableWithResponse <;> simp [hw, hlk, addLog]

/-! ## Helper lemmas about the connect retry loop -/

theorem connectGo_attempts_le (res : Nat → Option String) :
    ∀ r i, countAttempts (connectGo res i r).1 ≤ r := by
  intro r
  induction r with
  | zero => intro i; simp [connectGo, countAttempts]
  | succ r ih =>
    intro i
    unfold connectGo
    cases hres : res i with
    | none => simp [countAttempts]
    | some e =>
      cases r with
      | zero => simp [countAttempts]
      | succ r' =>
        simp only [countAttempts]
        have := ih (i + 1)
        omega

theorem connectGo_waits (res : Nat → Option String) :
    ∀ r i m, ConnEvent.wait m ∈ (connectGo res i r).1 → m = 1000 := by
  intro r
  induction r with
  | zero => intro i m h; simp [connectGo] at h
  | succ r ih =>
    intro i m h
    unfold connectGo at h
    cases hres : res i with
    | none =>
      rw [hres] at h
      simp at h
    | some e =>
      rw [hres] at h
      cases r with
      | zero => simp at h
      | succ r' =>
        simp only [List.mem_cons] at h
        rcases h with h | h | h
        · exact absurd h (by simp)
        · injection h
        · exact ih (i + 1) m (by simpa using h)

theorem connectGo_ok (res : Nat → Option String) :
    ∀ r K i, K < r → (∀ j, j < K → (res (i + j)).isSome) → res (i + K) = none →
      (connectGo res i r).2 = Except.ok (i + K) := by
  intro r
  induction r with
  | zero => intro K i hK; omega
  | succ r ih =>
    intro K i hK hfail hsucc
    unfold connectGo
    cases K with
    | zero =>
      have h0 : res i = none := by simpa using hsucc
      rw [h0]
      simp
    | succ K' =>
      have h0 : (res i).isSome := by simpa using hfail 0 (by omega)
      obtain ⟨e, he⟩ := Option.isSome_iff_exists.mp h0
      rw [he]
      cases r with
      | zero => omega
      | succ r' =>
        have hrec := ih K' (i + 1) (by omega)
          (fun j hj => by
            have := hfail (j + 1) (by omega)
            rwa [show i + (j + 1) = i + 1 + j by omega] at this)
          (by rwa [show i + 1 + K' = i + (K' + 1) by omega])
        simpa [show i + 1 + K' = i + (K' + 1) by omega] using hrec

theorem connectGo_err (res : Nat → Option String) (f : Nat → String) :
    ∀ r i, 0 < r → (∀ j, j < r → res (i + j) = some (f (i + j))) →
      (connectGo res i r).2 = Except.error (f (i + r - 1)) := by
  intro r
  induction r with
  | zero => intro i h; omega
  | succ r ih =>
    intro i _ hall
    unfold connectGo
    have he : res i = some (f i) := by simpa using hall 0 (by omega)
    rw [he]
    cases r with
    | zero => simp
    | succ r' =>
      have hrec := ih (i + 1) (by omega)
        (fun j hj => by
          have := hall (j + 1) (by omega)
          rwa [show i + (j + 1) = i + 1 + j by omega] at this)
      simp only []
      rw [hrec, show i + 1 + (r' + 1) - 1 = i + (r' + 1 + 1) - 1 by omega]

/-! ## Name-filter lemma -/

theorem nameField_match_iff (o : Option String) :
    ((o == some DEVICE_NAME) ||
        (jsTruthy o && listIncludes DEVICE_NAME.data (o.getD "").data)) = true ↔
      ∃ s, o = some s ∧ ContainsSubstring s DEVICE_NAME := by
  cases o with
  | none => simp [jsTruthy]
  | some s =>
    simp only [Option.getD_some, Bool.or_eq_true, Bool.and_eq_true, beq_iff_eq,
      Option.some.injEq, jsTruthy, Bool.not_eq_true', beq_eq_false_iff_ne, ne_eq]
    constructor
    · rintro (rfl | ⟨hne, hinc⟩)
      · exact ⟨DEVICE_NAME, rfl, [], [], by simp⟩
      · exact ⟨s, rfl, (listIncludes_iff DEVICE_NAME.data s.data).1 hinc⟩
    · rintro ⟨t, rfl, pre, post, hdata⟩
      right
      refine ⟨?_, (listIncludes_iff DEVICE_NAME.data s.data).2 ⟨pre, post, hdata⟩⟩
      intro hs
      subst hs
      rw [show ("" : String).data = [] from rfl] at hdata
      have hcontra := congrArg List.length hdata
      have hlen : 0 < DEVICE_NAME.length := by decide
      have hlen' : 0 < DEVICE_NAME.data.length := by decide
      simp [List.length_append] at hcontra
      omega

/-! ## Claim theorems -/

/-- Claim C1, counterexample: for a connection whose discovery lacks the
expected characteristic, the connect path still issues the
notification-subscribe adapter call, contradicting the claim that it
fails with TopologyNotVerified without any subscribe attempt. -/
theorem c1_counterexample :
    findTargetCharacteristic devNoChar.characteristicsForService = none
    ∧ AdapterCall.monitorCharacteristic SERVICE_UUID CHARACTERISTIC_UUID
        ∈ (connectVerify stIdle devNoChar).2 := by
  decide

/-- Claim C1 (amended): when the expected service or characteristic is
absent from the discovered topology, the command path (`toggleServo`)
performs no adapter write call, but the connect path registers the
notification monitor unconditionally, regardless of verification. -/
theorem c1_verification_gating (st : AppState) (dev : ConnectedDevice) (wr : WriteResult)
    (hd : st.device = some dev)
    (hmiss : findTargetService dev.services = none ∨
      findTargetCharacteristic dev.characteristicsForService = none) :
    (∀ c ∈ (toggleServo st wr).2, c.isWrite = false)
    ∧ AdapterCall.monitorCharacteristic SERVICE_UUID CHARACTERISTIC_UUID
        ∈ (connectVerify st dev).2 := by
  constructor
  · unfold toggleServo
    simp only [hd]
    cases hcon : st.isConnected with
    | false => simp
    | true =>
      rcases hmiss with hm | hm
      · simp [hm, AdapterCall.isWrite]
      · cases hsv : findTargetService dev.services with
        | none => simp [hsv, AdapterCall.isWrite]
        | some s => simp [hsv, hm, AdapterCall.isWrite]
  · unfold connectVerify
    simp

/-- Witness for C1 at a concrete unverified topology. -/
theorem c1_witness :
    (∀ c ∈ (toggleServo (stConn devNoChar) WriteResult.ok).2, c.isWrite = false)
    ∧ AdapterCall.monitorCharacteristic SERVICE_UUID CHARACTERISTIC_UUID
        ∈ (connectVerify (stConn devNoChar) devNoChar).2 :=
  c1_verification_gating (stConn devNoChar) devNoChar WriteResult.ok rfl (Or.inr (by decide))

/-- Claim C2, counterexample: with a verified characteristic advertising
neither write capability, `toggleServo` still issues a without-response
write rather than failing with NotWritable before any write. -/
theorem c2_counterexample :
    chNoCaps.isWritableWithResponse = false
    ∧ chNoCaps.isWritableWithoutResponse = false
    ∧ (toggleServo (stConn devNoCaps) WriteResult.ok).2 =
        [AdapterCall.servicesQuery, AdapterCall.characteristicsQuery,
          AdapterCall.writeWithoutResponse SERVICE_UUID CHARACTERISTIC_UUID
            (b64encode (asciiBytes "ON\n"))] := by
  decide

/-- Claim C2 (amended): the write mode is chosen solely from
`isWritableWithResponse`: a with-response write if set, otherwise a
without-response write unconditionally — even when the characteristic
is writable in neither mode; there is no NotWritable failure path. -/
theorem c2_write_mode (st : AppState) (dev : ConnectedDevice) (s : Service)
    (ch : Characteristic) (wr : WriteResult)
    (hd : st.device = some dev) (hc : st.isConnected = true)
    (hs : findTargetService dev.services = some s)
    (hch : findTargetCharacteristic dev.characteristicsForService = some ch) :
    (toggleServo st wr).2 = [AdapterCall.servicesQuery, AdapterCall.characteristicsQuery,
      if ch.isWritableWithResponse then
        AdapterCall.writeWithResponse SERVICE_UUID CHARACTERISTIC_UUID
          (b64encode (asciiBytes (commandToken (!st.servoState))))
      else
        AdapterCall.writeWithoutResponse SERVICE_UUID CHARACTERISTIC_UUID
          (b64encode (asciiBytes (commandToken (!st.servoState))))] :=
  toggleServo_calls st dev s ch wr hd hc hs hch

/-- Witness for C2 at the capability-free characteristic. -/
theorem c2_witness :
    (toggleServo (stConn devNoCaps) WriteResult.ok).2 =
      [AdapterCall.servicesQuery, AdapterCall.characteristicsQuery,
        if chNoCaps.isWritableWithResponse then
          AdapterCall.writeWithResponse SERVICE_UUID CHARACTERISTIC_UUID
            (b64encode (asciiBytes (commandToken (!(stConn devNoCaps).servoState))))
        else
          AdapterCall.writeWithoutResponse SERVICE_UUID CHARACTERISTIC_UUID
            (b64encode (asciiBytes (commandToken (!(stConn devNoCaps).servoState))))] :=
  c2_write_mode (stConn devNoCaps) devNoCaps svcOK chNoCaps WriteResult.ok rfl rfl
    (by decide) (by decide)

/-- Claim C3: the connect loop makes at most `maxRetries + 1` attempts,
every wait between failed attempts is the fixed 1000 ms, a first success
at attempt `K ≤ maxRetries` yields that attempt, and if every allowed
attempt fails the final attempt's error is surfaced. -/
theorem c3_retry_bound (res : Nat → Option String) (f : Nat → String) (maxRetries K : Nat) :
    countAttempts (connectToDeviceRetry res maxRetries).1 ≤ maxRetries + 1
    ∧ (∀ m, ConnEvent.wait m ∈ (connectToDeviceRetry res maxRetries).1 → m = 1000)
    ∧ (K ≤ maxRetries → (∀ j, j < K → (res j).isSome) → res K = none →
        (connectToDeviceRetry res maxRetries).2 = Except.ok K)
    ∧ ((∀ j, j ≤ maxRetries → res j = some (f j)) →
        (connectToDeviceRetry res maxRetries).2 = Except.error (f maxRetries)) := by
  refine ⟨connectGo_attempts_le res (maxRetries + 1) 0,
    fun m hm => connectGo_waits res (maxRetries + 1) 0 m hm, ?_, ?_⟩
  · intro hK hfail hsucc
    have h := connectGo_ok res (maxRetries + 1) K 0 (by omega)
      (fun j hj => by simpa using hfail j hj) (by simpa using hsucc)
    simpa [connectToDeviceRetry] using h
  · intro hall
    have h := connectGo_err res f (maxRetries + 1) 0 (by omega)
      (fun j hj => by simpa using hall j (by omega))
    simpa [connectToDeviceRetry] using h

/-- Witness for C3: two deterministic failures then success, with
`maxRetries = 2`, succeeds at attempt 2. -/
theorem c3_witness :
    2 ≤ 2 ∧ (connectToDeviceRetry resFailTwice 2).2 = Except.ok 2 :=
  ⟨by decide,
    (c3_retry_bound resFailTwice (fun _ => "") 2 2).2.2.1 (by decide) (by decide) (by decide)⟩

/-- Claim C4, counterexample: a write failing with a link-loss message
clears the device and connected flag, yet leaves `servoState` at `true`
rather than resetting it to the default `false`. -/
theorem c4_counterexample :
    (toggleServo (stConnOn devOK) (WriteResult.err "device disconnected")).1.device = none
    ∧ (toggleServo (stConnOn devOK) (WriteResult.err "device disconnected")).1.isConnected
        = false
    ∧ (toggleServo (stConnOn devOK) (WriteResult.err "device disconnected")).1.servoState
        = true := by
  decide

/-- Claim C4 (amended): the unsolicited-disconnect handler and the
error path of the solicited disconnect clear the device, the connected
flag and the servo state; the link-loss path of a failed write clears
the device and the connected flag but leaves `servoState` unchanged. -/
theorem c4_disconnect_cleanup (st : AppState) (devName : Option String)
    (m msg : String) (dev : ConnectedDevice) (s : Service) (ch : Characteristic)
    (hd : st.device = some dev) (hc : st.isConnected = true)
    (hs : findTargetService dev.services = some s)
    (hch : findTargetCharacteristic dev.characteristicsForService = some ch)
    (hlk : (jsIncludes msg "disconnected" || jsIncludes msg "not connected") = true) :
    ((onDisconnectedHandler st devName).device = none
      ∧ (onDisconnectedHandler st devName).isConnected = false
      ∧ (onDisconnectedHandler st devName).servoState = false)
    ∧ ((disconnectDevice st (WriteResult.err m)).1.device = none
      ∧ (disconnectDevice st (WriteResult.err m)).1.isConnected = false
      ∧ (disconnectDevice st (WriteResult.err m)).1.servoState = false)
    ∧ ((toggleServo st (WriteResult.err msg)).1.device = none
      ∧ (toggleServo st (WriteResult.err msg)).1.isConnected = false
      ∧ (toggleServo st (WriteResult.err msg)).1.servoState = st.servoState) := by
  refine ⟨⟨rfl, rfl, rfl⟩, ?_,
    toggleServo_err_link_fields st dev s ch msg hd hc hs hch hlk⟩
  unfold disconnectDevice
  rw [hd]
  exact ⟨rfl, rfl, rfl⟩

/-- Witness for C4 at a concrete link-loss failure with the servo on. -/
theorem c4_witness :
    (jsIncludes "device disconnected" "disconnected" ||
        jsIncludes "device disconnected" "not connected") = true
    ∧ (toggleServo (stConnOn devOK) (WriteResult.err "device disconnected")).1.servoState
        = (stConnOn devOK).servoState :=
  ⟨by decide,
    (c4_disconnect_cleanup (stConnOn devOK) none "e" "device disconnected" devOK svcOK chOK
      rfl rfl (by decide) (by decide) (by decide)).2.2.2.2⟩

/-- Claim C5, counterexample: on an adapter-reported scan error the
callback performs no `stopDeviceScan` call, so this exit path does not
leave the adapter provably stopped by this code. -/
theorem c5_counterexample :
    AdapterCall.stopDeviceScan ∉ (scanStep stIdle (ScanEvent.scanError "boom")).2 := by
  decide

/-- Claim C5 (amended): the candidate-found and timeout exits of the
scan invoke `stopDeviceScan`, but the adapter-error exit only clears
the scanning flag and cancels the timeout without stopping the scan. -/
theorem c5_scan_exit (st : AppState) (m : String) (n l : Option String) :
    (scanStep st ScanEvent.timeoutFired).2 = [AdapterCall.stopDeviceScan]
    ∧ (hasMatchingName n l = true →
        AdapterCall.stopDeviceScan ∈ (scanStep st (ScanEvent.deviceFound n l)).2)
    ∧ (scanStep st (ScanEvent.scanError m)).2 = []
    ∧ (scanStep st (ScanEvent.scanError m)).1.isScanning = false := by
  refine ⟨rfl, ?_, rfl, rfl⟩
  intro hmatch
  simp [scanStep, hmatch]

/-- Witness for C5 at a matching advertisement. -/
theorem c5_witness :
    hasMatchingName (some "BT05") none = true
    ∧ AdapterCall.stopDeviceScan
        ∈ (scanStep stIdle (ScanEvent.deviceFound (some "BT05") none)).2 :=
  ⟨by decide, (c5_scan_exit stIdle "e" (some "BT05") none).2.1 (by decide)⟩

/-- Claim C6: the scan filter selects an advertisement exactly when the
advertised name or the local name contains the target name "BT05"
as a case-sensitive substring (equality being the boundary case). -/
theorem c6_name_filter (deviceName localName : Option String) :
    hasMatchingName deviceName localName = true ↔
      (∃ s, deviceName = some s ∧ ContainsSubstring s DEVICE_NAME) ∨
      (∃ s, localName = some s ∧ ContainsSubstring s DEVICE_NAME) := by
  unfold hasMatchingName
  constructor
  · intro h
    simp only [Bool.or_eq_true] at h
    rcases h with ((h | h) | h) | h
    · exact Or.inl ((nameField_match_iff deviceName).1 (by simp [h]))
    · exact Or.inr ((nameField_match_iff localName).1 (by simp [h]))
    · exact Or.inl ((nameField_match_iff deviceName).1 (by simp [h]))
    · exact Or.inr ((nameField_match_iff localName).1 (by simp [h]))
  · intro h
    rcases h with h | h
    · have hb := (nameField_match_iff deviceName).2 h
      simp only [Bool.or_eq_true] at hb ⊢
      tauto
    · have hb := (nameField_match_iff localName).2 h
      simp only [Bool.or_eq_true] at hb ⊢
      tauto

/-- Claim C7: a notification payload classifies as a rain event exactly
when its ASCII decoding contains "RAIN" as a case-sensitive substring;
every payload is still logged (delivered) whether or not it classifies;
and the three payloads named by the spec classify as stated. -/
theorem c7_rain_classification (st : AppState) (v : String) :
    ((monitorCallback st (MonitorEvent.notif (some v))).2 = true
      ↔ ContainsSubstring (asciiOfBytes (b64decode v)) "RAIN")
    ∧ ("Received: " ++ asciiOfBytes (b64decode v))
        ∈ (monitorCallback st (MonitorEvent.notif (some v))).1.logs
    ∧ (monitorCallback st (MonitorEvent.notif (some (b64encode (asciiBytes "RAIN\n"))))).2
        = true
    ∧ (monitorCallback st (MonitorEvent.notif (some (b64encode (asciiBytes "xRAINy"))))).2
        = true
    ∧ (monitorCallback st (MonitorEvent.notif (some (b64encode (asciiBytes "OK\n"))))).2
        = false := by
  refine ⟨?_, ?_, by rfl, by rfl, by rfl⟩
  · simpa [monitorCallback] using jsIncludes_iff (asciiOfBytes (b64decode v)) "RAIN"
  · simp [monitorCallback, addLog]

/-- Claim C8: encoding the actuator-on intent to its wire form and
decoding back yields exactly "ON\n", and likewise "OFF\n" for
actuator-off: the base64 wire encoding round-trips both tokens. -/
theorem c8_roundtrip :
    asciiOfBytes (b64decode (b64encode (asciiBytes (commandToken true)))) = "ON\n"
    ∧ asciiOfBytes (b64decode (b64encode (asciiBytes (commandToken false)))) = "OFF\n" := by
  decide

/-- Claim C9: on any failed write the tracked servo state is unchanged
from its value before the `toggleServo` invocation; it is never updated
optimistically before the write completes. -/
theorem c9_no_optimistic_update (st : AppState) (msg : String) :
    (toggleServo st (WriteResult.err msg)).1.servoState = st.servoState := by
  unfold toggleServo
  cases hdev : st.device with
  | none => rfl
  | some dev =>
    cases hcon : st.isConnected with
    | false => rfl
    | true =>
      cases hsv : findTargetService dev.services with
      | none => simp [hsv, addLog]
      | some s =>
        cases hch : findTargetCharacteristic dev.characteristicsForService with
        | none => simp [hsv, hch, addLog]
        | some ch =>
          by_cases hl : (jsIncludes msg "disconnected" || jsIncludes msg "not connected") = true <;>
            simp [hsv, hch, hl, addLog]

/-- Claim C10: while connected with a verified topology, the wire token
is the encoding of "ON\n" exactly when `servoState` is false and of
"OFF\n" when it is true; a successful write flips the state, so the
immediately following invocation sends the other token. -/
theorem c10_alternation (st : AppState) (dev : ConnectedDevice) (s : Service)
    (ch : Characteristic) (wr wr' : WriteResult)
    (hd : st.device = some dev) (hc : st.isConnected = true)
    (hs : findTargetService dev.services = some s)
    (hch : findTargetCharacteristic dev.characteristicsForService = some ch) :
    writePayload (toggleServo st wr).2 =
        some (b64encode (asciiBytes (if st.servoState then "OFF\n" else "ON\n")))
    ∧ (toggleServo st WriteResult.ok).1.servoState = !st.servoState
    ∧ writePayload (toggleServo (toggleServo st WriteResult.ok).1 wr').2 =
        some (b64encode (asciiBytes (if st.servoState then "ON\n" else "OFF\n"))) := by
  obtain ⟨hservo, hdev', hconn'⟩ := toggleServo_ok_fields st dev s ch hd hc hs hch
  refine ⟨?_, hservo, ?_⟩
  · rw [toggleServo_calls st dev s ch wr hd hc hs hch]
    by_cases hw : ch.isWritableWithResponse <;>
      simp [hw, writePayload, commandToken_not]
  · rw [toggleServo_calls (toggleServo st WriteResult.ok).1 dev s ch wr' hdev' hconn' hs hch]
    rw [hservo]
    by_cases hw : ch.isWritableWithResponse <;>
      cases hb : st.servoState <;> simp [hw, writePayload, commandToken]

/-- Witness for C10 at a concrete verified connection. -/
theorem c10_witness :
    writePayload (toggleServo (stConn devOK) WriteResult.ok).2 =
        some (b64encode (asciiBytes
          (if (stConn devOK).servoState then "OFF\n" else "ON\n")))
    ∧ (toggleServo (stConn devOK) WriteResult.ok).1.servoState
        = !(stConn devOK).servoState
    ∧ writePayload
          (toggleServo (toggleServo (stConn devOK) WriteResult.ok).1 WriteResult.ok).2 =
        some (b64encode (asciiBytes
          (if (stConn devOK).servoState then "ON\n" else "OFF\n"))) :=
  c10_alternation (stConn devOK) devOK svcOK chOK WriteResult.ok WriteResult.ok rfl rfl
    (by decide) (by decide)

end HydroSync
